import Mathlib

/-!
Shallow embedding of the spdlog-based logging core: severity levels and the
level-filter gate, the logger dispatch operations, the bounded async queue
with its overflow policy and shutdown protocol, global sync/async mode
configuration, the rotating file sink, the compile-time trace/debug macro
expansions, and the stdout/stderr sink variants.

The repository under verification ships only the public declaration headers
(the main spdlog header and sinks/stdout_sinks.h); the implementation files
(logger.h, async_log_helper.h, ostream_sink.h, details/*) are not present.
Definitions for those missing parts are modelled from the specification and
carry a doc comment saying so; definitions for code that is present (the
macro expansions, the sink typedefs and constructors) are translated from
the source.
-/

namespace Spdlog

/-- The ordered severity enumeration `level::level_enum`
{trace, debug, info, warn, err, critical, off}, with `off` the sentinel
meaning never log. -/
inductive Level where
  | trace
  | debug
  | info
  | warn
  | err
  | critical
  | off
deriving DecidableEq, Repr

/-- Numeric urgency of a level, giving the total order used by the
threshold comparison (trace lowest, off highest). -/
def Level.toNat : Level → Nat
  | Level.trace => 0
  | Level.debug => 1
  | Level.info => 2
  | Level.warn => 3
  | Level.err => 4
  | Level.critical => 5
  | Level.off => 6

/-- Modelled from the spec: the LevelFilter contract
`should_log(logger_threshold, message_severity)`, true iff
`message_severity >= logger_threshold` and `logger_threshold != off`
(the logger implementation is not under src/). -/
def should_log (logger_threshold message_severity : Level) : Bool :=
  decide (logger_threshold.toNat ≤ message_severity.toNat)
    && !(logger_threshold == Level.off)

/-- A logger binds a severity threshold and an ordered list of bound sinks
(identified here by name). -/
structure Logger where
  threshold : Level
  sinks : List String

/-- Modelled from the spec: `Logger.log` gates via the LevelFilter and, when
the gate passes, dispatches the rendered message to every bound sink in
registration order (the logger implementation is not under src/).  The
result is the list of (sink, message) deliveries. -/
def Logger.log (lg : Logger) (s : Level) (msg : String) : List (String × String) :=
  if should_log lg.threshold s then lg.sinks.map (fun sk => (sk, msg)) else []

/-- Modelled from the spec: `Logger.force_log` skips the threshold check
entirely but still respects `off` (the logger implementation is not under
src/).  The severity argument is carried by the message but takes no part
in the gate. -/
def Logger.force_log (lg : Logger) (_s : Level) (msg : String) : List (String × String) :=
  if lg.threshold == Level.off then [] else lg.sinks.map (fun sk => (sk, msg))

/-- The overflow policy enumeration `async_overflow_policy`
{block_retry, discard_log_msg}, chosen once per async-mode activation. -/
inductive OverflowPolicy where
  | block_retry
  | discard_log_msg
deriving DecidableEq, Repr

/-- Modelled from the spec: the AsyncQueue, a fixed-capacity FIFO ring
buffer of messages with an internal dropped-message counter (the queue
implementation, async_log_helper, is not under src/).  The buffer holds
the pending messages oldest first; `capacity` is fixed at construction. -/
structure AsyncQueue (α : Type) where
  capacity : Nat
  buffer : List α
  dropped : Nat
deriving DecidableEq, Repr

/-- A freshly constructed queue of the given capacity: empty, nothing
dropped. -/
def emptyQueue (α : Type) (cap : Nat) : AsyncQueue α :=
  { capacity := cap, buffer := [], dropped := 0 }

/-- Modelled from the spec: a push under the `discard_log_msg` overflow
policy (the queue implementation is not under src/): if the queue is full
the producer returns immediately without inserting and the internal
dropped counter advances; otherwise the message is appended at the tail.
The function is total: it never blocks and never throws. -/
def AsyncQueue.push_discard (q : AsyncQueue α) (m : α) : AsyncQueue α :=
  if q.buffer.length < q.capacity then
    { q with buffer := q.buffer ++ [m] }
  else
    { q with dropped := q.dropped + 1 }

/-- Push a whole list of messages, one `push_discard` per attempt, in
order. -/
def pushAll (q : AsyncQueue α) (msgs : List α) : AsyncQueue α :=
  msgs.foldl AsyncQueue.push_discard q

/-- Modelled from the spec: the consumer-side pop (the queue
implementation is not under src/): removes and returns the oldest
message, or `none` on an empty queue. -/
def AsyncQueue.pop (q : AsyncQueue α) : Option α × AsyncQueue α :=
  match q.buffer with
  | [] => (none, q)
  | m :: rest => (some m, { q with buffer := rest })

/-- Repeatedly pop at most `fuel` messages from the queue. -/
def drainFuel : Nat → AsyncQueue α → List α
  | 0, _ => []
  | fuel + 1, q =>
    match q.pop with
    | (some m, q2) => m :: drainFuel fuel q2
    | (none, _) => []

/-- Fully drain the queue through `pop`, collecting the messages in the
order the consumer dequeues them. -/
def AsyncQueue.drain (q : AsyncQueue α) : List α :=
  drainFuel q.buffer.length q

/-- An item travelling through an async logger's queue: either a regular
log message or the distinguished terminate signal enqueued at shutdown. -/
inductive QItem where
  | msg (m : String)
  | terminate
deriving DecidableEq, Repr

/-- Modelled from the spec: the Worker loop (the worker implementation is
not under src/): it takes the dequeued items in order and the per-sink
delivery logs of the bound sinks; a regular message is fanned out to every
bound sink, the terminate signal stops the loop at once.  The result is
the per-sink delivery logs at the moment the worker exits. -/
def workerLoop : List QItem → List (List String) → List (List String)
  | [], logs => logs
  | QItem.terminate :: _, logs => logs
  | QItem.msg m :: rest, logs => workerLoop rest (logs.map (fun l => l ++ [m]))

/-- Power-of-two test by repeated halving, with an explicit fuel argument
so the recursion is structural. -/
def isPowTwoFuel : Nat → Nat → Bool
  | 0, _ => false
  | _ + 1, 0 => false
  | _ + 1, 1 => true
  | fuel + 1, n + 2 => (n + 2) % 2 == 0 && isPowTwoFuel fuel ((n + 2) / 2)

/-- Whether `n` is a power of two, by repeated halving (the construction
validates the queue size this way so that index masking is cheap). -/
def isPowTwo (n : Nat) : Bool := isPowTwoFuel n n

/-- The configuration-error taxonomy entry raised for an invalid
construction parameter. -/
inductive ConfigError where
  | ConfigurationError
deriving DecidableEq, Repr

/-- Modelled from the spec: queue construction performed when an async
logger pre-allocates its dedicated queue under `set_async_mode`
(the implementation is not under src/): the queue size must be a power of
two; a non-power-of-two size is a ConfigurationError, fatal at
construction, never a silently mis-sized queue. -/
def mkAsyncQueue (α : Type) (queue_size : Nat) : Except ConfigError (AsyncQueue α) :=
  if isPowTwo queue_size then Except.ok (emptyQueue α queue_size)
  else Except.error ConfigError.ConfigurationError

/-- The process-wide defaults mutated by `set_async_mode` / `set_sync_mode`
and consulted only at logger-construction time. -/
structure GlobalConfig where
  asyncMode : Bool
  queueSize : Nat
  policy : OverflowPolicy
deriving DecidableEq, Repr

/-- The construction-time snapshot a logger instance keeps: whether it is
async, and the queue size and overflow policy of its dedicated queue. -/
structure LoggerInst where
  isAsync : Bool
  queueSize : Nat
  policy : OverflowPolicy
deriving DecidableEq, Repr

/-- Process state: the global configuration plus every logger instance
constructed so far, in construction order. -/
structure ProcessState where
  config : GlobalConfig
  loggers : List LoggerInst
deriving DecidableEq, Repr

/-- Modelled from the spec: `set_async_mode(queue_size, policy, ...)`
turns on async mode and records the queue size and overflow policy in the
process-wide defaults, effective only for loggers created after the call
(the implementation, spdlog_impl, is not under src/). -/
def set_async_mode (st : ProcessState) (queue_size : Nat) (policy : OverflowPolicy) :
    ProcessState :=
  { st with config := { asyncMode := true, queueSize := queue_size, policy := policy } }

/-- Modelled from the spec: `set_sync_mode()` turns async mode back off in
the process-wide defaults (the implementation is not under src/). -/
def set_sync_mode (st : ProcessState) : ProcessState :=
  { st with config := { st.config with asyncMode := false } }

/-- Modelled from the spec: logger construction snapshots the current
process-wide defaults into the new instance and appends it to the process
state (the implementation is not under src/). -/
def constructLogger (st : ProcessState) : ProcessState × LoggerInst :=
  let lg : LoggerInst :=
    { isAsync := st.config.asyncMode
      queueSize := st.config.queueSize
      policy := st.config.policy }
  ({ st with loggers := st.loggers ++ [lg] }, lg)

/-- The sink-IO error taxonomy entry raised for a write/open/rename
failure inside a sink. -/
inductive SinkError where
  | SinkIOError
deriving DecidableEq, Repr

/-- Modelled from the spec: the RotatingFileSink state (the rotating file
sink implementation is not under src/): the construction parameters
`max_file_size` and `max_files`, the cumulative byte count of the active
file, a running index naming the active file, the retained historical
files oldest first, and the number of rollover events so far. -/
structure RotatingSink where
  max_file_size : Nat
  max_files : Nat
  current_size : Nat
  current_index : Nat
  files : List Nat
  rollovers : Nat
deriving DecidableEq, Repr

/-- A freshly constructed rotating sink: empty active file numbered 0, no
historical files, no rollovers. -/
def mkRotatingSink (max_file_size max_files : Nat) : RotatingSink :=
  { max_file_size := max_file_size, max_files := max_files,
    current_size := 0, current_index := 0, files := [], rollovers := 0 }

/-- Modelled from the spec: one rollover event (the rotating file sink
implementation is not under src/): close the active file, rename it into
the retained set evicting the oldest beyond `max_files`, and open a fresh
empty file; `renameOk` is whether the filesystem rename/open succeeds,
and a failure is reported, not swallowed. -/
def RotatingSink.rotate (renameOk : Bool) (s : RotatingSink) :
    Except SinkError RotatingSink :=
  if renameOk then
    Except.ok
      { s with
        current_size := 0
        current_index := s.current_index + 1
        files := (s.files ++ [s.current_index]).drop
          (s.files.length + 1 - s.max_files)
        rollovers := s.rollovers + 1 }
  else Except.error SinkError.SinkIOError

/-- Modelled from the spec: `RotatingFileSink.consume` of a formatted
message of `len` bytes (the rotating file sink implementation is not
under src/): when the cumulative byte count would cross `max_file_size`
the sink rotates synchronously, exactly once, then writes the message into
the fresh file; a rotation failure is a failure of this `consume` call. -/
def RotatingSink.consume (renameOk : Bool) (len : Nat) (s : RotatingSink) :
    Except SinkError RotatingSink :=
  if s.max_file_size < s.current_size + len then
    match RotatingSink.rotate renameOk s with
    | Except.ok s2 => Except.ok { s2 with current_size := len }
    | Except.error e => Except.error e
  else
    Except.ok { s with current_size := s.current_size + len }

/-- The shape a compile-time trace/debug call site expands to: nothing at
all, or a `force_log` call on the logger (optionally streaming the call
site's source file and line into the logged record). -/
inductive Expansion where
  | nothing
  | forceLogCall (lvl : Level) (attachesFileLine : Bool)
deriving DecidableEq, Repr

/-- Whether an expansion attaches the source file and line of the call
site to the logged record. -/
def Expansion.attachesSourceLoc : Expansion → Bool
  | Expansion.nothing => false
  | Expansion.forceLogCall _ b => b

/-- The expansion of an SPDLOG_TRACE call site, from the source: with
SPDLOG_TRACE_ON defined it expands to
`logger->force_log(spdlog::level::trace, ...)` followed by streaming
`__FILE__` and `__LINE__`; without the switch it expands to nothing. -/
def spdlogTraceExpand (traceOn : Bool) : Expansion :=
  if traceOn then Expansion.forceLogCall Level.trace true else Expansion.nothing

/-- The expansion of an SPDLOG_DEBUG call site, from the source: with
SPDLOG_DEBUG_ON defined it expands to
`logger->force_log(spdlog::level::debug, ...)` with no file/line
streaming; without the switch it expands to nothing. -/
def spdlogDebugExpand (debugOn : Bool) : Expansion :=
  if debugOn then Expansion.forceLogCall Level.debug false else Expansion.nothing

/-- Running an expansion against a logger: an empty expansion dispatches
nothing; a force_log call dispatches through `Logger.force_log`. -/
def runExpansion (lg : Logger) (msg : String) : Expansion → List (String × String)
  | Expansion.nothing => []
  | Expansion.forceLogCall lvl _ => Logger.force_log lg lvl msg

/-- The two locking strategies a sink template is instantiated with:
`std::mutex` for the _mt typedefs, `details::null_mutex` for the _st
typedefs. -/
inductive MutexKind where
  | realMutex
  | nullMutex
deriving DecidableEq, Repr

/-- An observable event of one sink operation: taking or releasing the
internal mutex, writing formatted bytes to the wrapped stream, or
flushing the wrapped stream. -/
inductive SinkEvent where
  | lock
  | unlock
  | write (bytes : String)
  | flushStream
deriving DecidableEq, Repr

/-- The configuration an ostream-backed sink is constructed with: which
standard stream it wraps and whether every consumed message is
force-flushed. -/
structure OstreamSinkCfg where
  usesStderr : Bool
  forceFlush : Bool
deriving DecidableEq, Repr

/-- From the source (`stdout_sink() : ostream_sink<Mutex>(std::cout, true)`):
the stdout_sink constructor takes no arguments and hands the base class
`std::cout` with the force-flush flag fixed to `true`, for either mutex
instantiation. -/
def stdout_sink (_mutex : MutexKind) : OstreamSinkCfg :=
  { usesStderr := false, forceFlush := true }

/-- From the source (`stderr_sink() : ostream_sink<Mutex>(std::cerr, true)`):
the stderr_sink constructor takes no arguments and hands the base class
`std::cerr` with the force-flush flag fixed to `true`, for either mutex
instantiation. -/
def stderr_sink (_mutex : MutexKind) : OstreamSinkCfg :=
  { usesStderr := true, forceFlush := true }

/-- The typedef `stdout_sink_st = stdout_sink<details::null_mutex>`. -/
def stdout_sink_st : OstreamSinkCfg := stdout_sink MutexKind.nullMutex

/-- The typedef `stdout_sink_mt = stdout_sink<std::mutex>`. -/
def stdout_sink_mt : OstreamSinkCfg := stdout_sink MutexKind.realMutex

/-- The typedef `stderr_sink_st = stderr_sink<details::null_mutex>`. -/
def stderr_sink_st : OstreamSinkCfg := stderr_sink MutexKind.nullMutex

/-- The typedef `stderr_sink_mt = stderr_sink<std::mutex>`. -/
def stderr_sink_mt : OstreamSinkCfg := stderr_sink MutexKind.realMutex

/-- Modelled from the spec: the event trace of one `consume` call of an
ostream sink instantiated with the given mutex kind (ostream_sink /
base_sink are not under src/): the multi-threaded instantiation brackets
the operation in lock/unlock of its internal mutex, the single-threaded
instantiation performs no locking; inside, the formatted bytes are
written and, when the sink was constructed with force-flush, the stream is
flushed per message. -/
def consumeEvents (mutex : MutexKind) (cfg : OstreamSinkCfg) (bytes : String) :
    List SinkEvent :=
  (if mutex = MutexKind.realMutex then [SinkEvent.lock] else [])
    ++ [SinkEvent.write bytes]
    ++ (if cfg.forceFlush then [SinkEvent.flushStream] else [])
    ++ (if mutex = MutexKind.realMutex then [SinkEvent.unlock] else [])

/-- Modelled from the spec: the event trace of one `flush` call (ostream_sink
/ base_sink are not under src/): same locking discipline around a stream
flush. -/
def flushEvents (mutex : MutexKind) : List SinkEvent :=
  (if mutex = MutexKind.realMutex then [SinkEvent.lock] else [])
    ++ [SinkEvent.flushStream]
    ++ (if mutex = MutexKind.realMutex then [SinkEvent.unlock] else [])

/-- The non-locking observable content of a trace: the write and flush
events with lock/unlock erased.  Two sink variants behave identically
apart from locking iff their traces have the same stream events. -/
def streamEvents (evs : List SinkEvent) : List SinkEvent :=
  evs.filter (fun e =>
    match e with
    | SinkEvent.lock => false
    | SinkEvent.unlock => false
    | _ => true)

/-! ## Helper lemmas -/

/-- The threshold gate, unfolded into its propositional form. -/
lemma should_log_iff (t s : Level) :
    should_log t s = true ↔ (t.toNat ≤ s.toNat ∧ t ≠ Level.off) := by
  simp [should_log]

/-- Draining `fuel` items through `pop` takes the first `fuel` buffered
messages in order. -/
lemma drainFuel_eq_take (fuel : Nat) (q : AsyncQueue α) :
    drainFuel fuel q = q.buffer.take fuel := by
  induction fuel generalizing q with
  | zero => rfl
  | succ n ih =>
    cases hb : q.buffer with
    | nil => simp [drainFuel, AsyncQueue.pop, hb]
    | cons m rest =>
      simp [drainFuel, AsyncQueue.pop, hb, ih]

/-- A full drain through `pop` recovers the whole buffer in FIFO order. -/
lemma drain_eq_buffer (q : AsyncQueue α) : q.drain = q.buffer := by
  simp [AsyncQueue.drain, drainFuel_eq_take]

/-- Pushing a list that still fits inserts every message at the tail in
order, drops nothing, and leaves the capacity unchanged. -/
lemma pushAll_fits (q : AsyncQueue α) (msgs : List α)
    (h : q.buffer.length + msgs.length ≤ q.capacity) :
    (pushAll q msgs).buffer = q.buffer ++ msgs ∧
    (pushAll q msgs).dropped = q.dropped ∧
    (pushAll q msgs).capacity = q.capacity := by
  induction msgs generalizing q with
  | nil => simp [pushAll]
  | cons m rest ih =>
    have hlt : q.buffer.length < q.capacity := by
      simp only [List.length_cons] at h; omega
    have hstep : pushAll q (m :: rest) =
        pushAll { q with buffer := q.buffer ++ [m] } rest := by
      simp [pushAll, AsyncQueue.push_discard, hlt]
    rw [hstep]
    have h2 := ih { q with buffer := q.buffer ++ [m] }
      (by simp only [List.length_append, List.length_cons, List.length_nil]
            at h ⊢; omega)
    simpa using h2

/-- Conservation under `discard_log_msg`: starting from a queue whose
buffer respects its capacity, after any sequence of pushes the buffered
count plus the dropped count equals the old counts plus the attempts, the
buffer still respects the capacity, and the capacity is unchanged. -/
lemma pushAll_count (q : AsyncQueue α) (msgs : List α)
    (h : q.buffer.length ≤ q.capacity) :
    (pushAll q msgs).buffer.length + (pushAll q msgs).dropped
        = q.buffer.length + q.dropped + msgs.length ∧
    (pushAll q msgs).buffer.length ≤ (pushAll q msgs).capacity ∧
    (pushAll q msgs).capacity = q.capacity := by
  induction msgs generalizing q with
  | nil => simpa [pushAll] using h
  | cons m rest ih =>
    by_cases hlt : q.buffer.length < q.capacity
    · have hstep : pushAll q (m :: rest) =
          pushAll { q with buffer := q.buffer ++ [m] } rest := by
        simp [pushAll, AsyncQueue.push_discard, hlt]
      rw [hstep]
      have h2 := ih { q with buffer := q.buffer ++ [m] } (by simp; omega)
      simp only [List.length_append, List.length_cons, List.length_nil] at h2 ⊢
      omega
    · have hstep : pushAll q (m :: rest) =
          pushAll { q with dropped := q.dropped + 1 } rest := by
        simp [pushAll, AsyncQueue.push_discard, hlt]
      rw [hstep]
      have h2 := ih { q with dropped := q.dropped + 1 } (by simpa using h)
      simp only [List.length_cons] at h2 ⊢
      omega

/-- The worker fans a prefix of regular messages out to every sink log
before it even looks at the remaining items. -/
lemma workerLoop_fanout (msgs : List String) (tail : List QItem)
    (logs : List (List String)) :
    workerLoop (msgs.map QItem.msg ++ tail) logs
      = workerLoop tail (logs.map (fun l => l ++ msgs)) := by
  induction msgs generalizing logs with
  | nil => simp
  | cons m rest ih =>
    simp only [List.map_cons, List.cons_append, workerLoop, List.append_eq]
    rw [ih]
    congr 1
    rw [List.map_map]
    congr 1
    funext l
    simp

/-- With enough fuel, `isPowTwoFuel` recognises exactly the powers of
two. -/
lemma isPowTwoFuel_iff (fuel : Nat) :
    ∀ n, n ≤ fuel → (isPowTwoFuel fuel n = true ↔ ∃ k, n = 2 ^ k) := by
  induction fuel with
  | zero =>
    intro n hn
    have hn0 : n = 0 := by omega
    subst hn0
    constructor
    · intro h; exact absurd h (by decide)
    · rintro ⟨k, hk⟩
      have := Nat.pos_pow_of_pos (n := 2) k (by decide)
      omega
  | succ fuel ih =>
    intro n hn
    match n with
    | 0 =>
      simp only [isPowTwoFuel]
      constructor
      · intro h; exact absurd h (by decide)
      · rintro ⟨k, hk⟩
        have := Nat.pos_pow_of_pos (n := 2) k (by decide)
        omega
    | 1 =>
      simp only [isPowTwoFuel]
      constructor
      · intro _; exact ⟨0, rfl⟩
      · intro _; trivial
    | (m + 2) =>
      simp only [isPowTwoFuel, Bool.and_eq_true, beq_iff_eq]
      constructor
      · rintro ⟨h1, h2⟩
        obtain ⟨k, hk⟩ := (ih ((m + 2) / 2) (by omega)).mp h2
        refine ⟨k + 1, ?_⟩
        rw [pow_succ]
        omega
      · rintro ⟨k, hk⟩
        match k with
        | 0 => simp at hk
        | j + 1 =>
          rw [pow_succ] at hk
          have hj : 0 < 2 ^ j := Nat.pos_pow_of_pos j (by decide)
          have hdiv : (m + 2) / 2 = 2 ^ j := by omega
          refine ⟨by omega, ?_⟩
          rw [hdiv]
          exact (ih (2 ^ j) (by omega)).mpr ⟨j, rfl⟩

/-- `isPowTwo` recognises exactly the powers of two. -/
lemma isPowTwo_iff (n : Nat) : isPowTwo n = true ↔ ∃ k, n = 2 ^ k :=
  isPowTwoFuel_iff n n (Nat.le_refl n)

/-! ## Claim theorems -/

/-- C1: a message of severity `s` sent through `Logger.log` on a logger
with threshold `t` is dispatched to each of the logger's sinks iff
`s ≥ t` and `t ≠ off`; `force_log` bypasses the threshold comparison but
still dispatches nothing when `t = off`. -/
theorem C1_level_filter_gate (t s : Level) (sinks : List String)
    (sk msg : String) :
    ((sk, msg) ∈ Logger.log ⟨t, sinks⟩ s msg ↔
        (sk ∈ sinks ∧ t.toNat ≤ s.toNat ∧ t ≠ Level.off)) ∧
    ((sk, msg) ∈ Logger.force_log ⟨t, sinks⟩ s msg ↔
        (sk ∈ sinks ∧ t ≠ Level.off)) := by
  constructor
  · by_cases h : should_log t s = true
    · obtain ⟨h1, h2⟩ := (should_log_iff t s).mp h
      rw [Logger.log]
      simp [h, h1, h2]
    · rw [Logger.log]
      simp only [h, if_false, Bool.false_eq_true, if_neg]
      rw [should_log_iff] at h
      simp only [List.not_mem_nil, false_iff]
      rintro ⟨-, hle, hne⟩
      exact h ⟨hle, hne⟩
  · by_cases h : t = Level.off
    · subst h
      rw [Logger.force_log]
      simp
    · rw [Logger.force_log]
      simp [h]

/-- C2: after enqueueing `k` messages and then the distinguished terminate
signal, the terminate signal is dequeued only after all `k` messages
(FIFO), and on this normal shutdown the worker delivers every pending
message to every bound sink before it exits. -/
theorem C2_shutdown_drains (msgs : List String) (numSinks cap : Nat)
    (h : msgs.length + 1 ≤ cap) :
    (pushAll (emptyQueue QItem cap) (msgs.map QItem.msg ++ [QItem.terminate])).drain
        = msgs.map QItem.msg ++ [QItem.terminate] ∧
    workerLoop
        ((pushAll (emptyQueue QItem cap) (msgs.map QItem.msg ++ [QItem.terminate])).drain)
        (List.replicate numSinks [])
      = List.replicate numSinks msgs := by
  have hfits := pushAll_fits (emptyQueue QItem cap)
    (msgs.map QItem.msg ++ [QItem.terminate])
    (by simp [emptyQueue]; omega)
  have hdrain :
      (pushAll (emptyQueue QItem cap) (msgs.map QItem.msg ++ [QItem.terminate])).drain
        = msgs.map QItem.msg ++ [QItem.terminate] := by
    rw [drain_eq_buffer, hfits.1]
    simp [emptyQueue]
  refine ⟨hdrain, ?_⟩
  rw [hdrain, workerLoop_fanout]
  rw [show workerLoop [QItem.terminate]
        ((List.replicate numSinks []).map (fun l => l ++ msgs))
      = (List.replicate numSinks ([] : List String)).map (fun l => l ++ msgs)
    from rfl]
  simp

/-- C2 witness: two messages then the terminate signal through a
capacity-4 queue with two bound sinks: the terminate signal is dequeued
last and both sinks hold both messages when the worker exits. -/
theorem C2_shutdown_drains_witness :
    (pushAll (emptyQueue QItem 4)
        (["m1", "m2"].map QItem.msg ++ [QItem.terminate])).drain
      = ["m1", "m2"].map QItem.msg ++ [QItem.terminate] ∧
    workerLoop
        ((pushAll (emptyQueue QItem 4)
            (["m1", "m2"].map QItem.msg ++ [QItem.terminate])).drain)
        (List.replicate 2 [])
      = List.replicate 2 ["m1", "m2"] :=
  C2_shutdown_drains ["m1", "m2"] 2 4 (by decide)

/-- C3: under `discard_log_msg`, a push into a full queue returns without
inserting (the buffer is unchanged and only the dropped counter advances,
so it neither blocks nor throws), and after any sequence of pushes into a
fresh queue the number delivered is at most the number attempted with the
dropped counter exactly the difference. -/
theorem C3_discard_policy (cap : Nat) (msgs : List String)
    (q : AsyncQueue String) (m : String) (hfull : q.buffer.length = q.capacity) :
    ((q.push_discard m).buffer = q.buffer ∧
     (q.push_discard m).dropped = q.dropped + 1) ∧
    ((pushAll (emptyQueue String cap) msgs).buffer.length ≤ msgs.length ∧
     (pushAll (emptyQueue String cap) msgs).dropped
        = msgs.length - (pushAll (emptyQueue String cap) msgs).buffer.length) := by
  constructor
  · have hnot : ¬ q.buffer.length < q.capacity := by omega
    rw [AsyncQueue.push_discard]
    simp [hnot]
  · have hcount := pushAll_count (emptyQueue String cap) msgs (by simp [emptyQueue])
    simp only [emptyQueue, List.length_nil] at hcount ⊢
    omega

/-- C3 witness: a full queue of capacity 2 stays unchanged with its counter
advanced, and three attempts into a fresh capacity-2 queue leave the drop
counter at attempted minus delivered. -/
theorem C3_discard_policy_witness :
    ((AsyncQueue.push_discard ⟨2, ["a", "b"], 0⟩ "c").buffer = ["a", "b"] ∧
     (AsyncQueue.push_discard ⟨2, ["a", "b"], 0⟩ "c").dropped = 0 + 1) ∧
    ((pushAll (emptyQueue String 2) ["a", "b", "c"]).buffer.length ≤
        (["a", "b", "c"] : List String).length ∧
     (pushAll (emptyQueue String 2) ["a", "b", "c"]).dropped
        = (["a", "b", "c"] : List String).length
            - (pushAll (emptyQueue String 2) ["a", "b", "c"]).buffer.length) :=
  C3_discard_policy 2 ["a", "b", "c"] ⟨2, ["a", "b"], 0⟩ "c" rfl

/-- C4: enqueueing `k ≤ capacity` messages and then fully draining the
queue yields exactly those `k` messages in the order the single producer
enqueued them. -/
theorem C4_fifo_roundtrip (cap : Nat) (msgs : List String)
    (h : msgs.length ≤ cap) :
    (pushAll (emptyQueue String cap) msgs).drain = msgs := by
  have hfits := pushAll_fits (emptyQueue String cap) msgs
    (by simpa [emptyQueue] using h)
  rw [drain_eq_buffer, hfits.1]
  simp [emptyQueue]

/-- C4 witness: three messages through a capacity-4 queue come back
exactly and in order. -/
theorem C4_fifo_roundtrip_witness :
    (pushAll (emptyQueue String 4) ["x", "y", "z"]).drain = ["x", "y", "z"] :=
  C4_fifo_roundtrip 4 ["x", "y", "z"] (by decide)

/-- C5: a successfully constructed AsyncQueue has a power-of-two capacity,
the capacity is immutable under the queue operations, and a
non-power-of-two queue size fails construction with a ConfigurationError
instead of producing a mis-sized queue. -/
theorem C5_capacity_power_of_two (queue_size : Nat) :
    (∀ q : AsyncQueue String, mkAsyncQueue String queue_size = Except.ok q →
        ∃ k, q.capacity = 2 ^ k) ∧
    ((¬ ∃ k, queue_size = 2 ^ k) →
        mkAsyncQueue String queue_size = Except.error ConfigError.ConfigurationError) ∧
    (∀ q : AsyncQueue String, ∀ m,
        (q.push_discard m).capacity = q.capacity ∧ q.pop.2.capacity = q.capacity) := by
  refine ⟨?_, ?_, ?_⟩
  · intro q hq
    rw [mkAsyncQueue] at hq
    by_cases h : isPowTwo queue_size = true
    · obtain ⟨k, hk⟩ := (isPowTwo_iff queue_size).mp h
      simp only [h, if_true] at hq
      cases hq
      exact ⟨k, hk⟩
    · simp [h] at hq
  · intro hno
    have h : isPowTwo queue_size ≠ true := fun h => hno ((isPowTwo_iff queue_size).mp h)
    rw [mkAsyncQueue]
    simp [h]
  · intro q m
    constructor
    · rw [AsyncQueue.push_discard]
      by_cases h : q.buffer.length < q.capacity <;> simp [h]
    · rw [AsyncQueue.pop]
      cases q.buffer <;> simp

/-- C5 witness: size 4 constructs a queue of power-of-two capacity and
size 3 is rejected as a ConfigurationError. -/
theorem C5_capacity_power_of_two_witness :
    (∃ k, (emptyQueue String 4).capacity = 2 ^ k) ∧
    mkAsyncQueue String 3 = Except.error ConfigError.ConfigurationError := by
  refine ⟨(C5_capacity_power_of_two 4).1 (emptyQueue String 4) rfl,
    (C5_capacity_power_of_two 3).2.1 ?_⟩
  rintro ⟨k, hk⟩
  match k with
  | 0 => simp at hk
  | j + 1 =>
    rw [pow_succ] at hk
    have hj : 0 < 2 ^ j := Nat.pos_pow_of_pos j (by decide)
    omega

/-- C6: `set_async_mode` and `set_sync_mode` mutate only the process-wide
defaults consulted at construction time: every already-constructed logger
instance is unchanged, while a logger constructed after the call snapshots
the new mode. -/
theorem C6_mode_switch_frame (st : ProcessState) (queue_size : Nat)
    (policy : OverflowPolicy) :
    (set_async_mode st queue_size policy).loggers = st.loggers ∧
    (set_sync_mode st).loggers = st.loggers ∧
    (constructLogger (set_async_mode st queue_size policy)).2
        = { isAsync := true, queueSize := queue_size, policy := policy } ∧
    (constructLogger (set_sync_mode st)).2.isAsync = false := by
  refine ⟨rfl, rfl, rfl, rfl⟩

/-- C7: on a consume whose bytes cross `max_file_size` exactly one
rollover happens (and none otherwise), at most `max_files` historical
files are retained with the oldest evicted first, and a rename failure
during rotation is a failure of that consume call. -/
theorem C7_rotation (s s2 : RotatingSink) (len : Nat) (renameOk : Bool)
    (hok : RotatingSink.consume renameOk len s = Except.ok s2)
    (hfiles : s.files.length ≤ s.max_files) :
    (s.max_file_size < s.current_size + len →
        s2.rollovers = s.rollovers + 1 ∧
        (s.files.length = s.max_files → 0 < s.max_files →
            s2.files = s.files.drop 1 ++ [s.current_index])) ∧
    (¬ s.max_file_size < s.current_size + len →
        s2.rollovers = s.rollovers ∧ s2.files = s.files) ∧
    s2.files.length ≤ s.max_files ∧
    (s.max_file_size < s.current_size + len →
        RotatingSink.consume false len s = Except.error SinkError.SinkIOError) := by
  by_cases hcross : s.max_file_size < s.current_size + len
  · rw [RotatingSink.consume, if_pos hcross] at hok
    by_cases hre : renameOk
    · subst hre
      rw [RotatingSink.rotate, if_pos rfl] at hok
      simp only [Except.ok.injEq] at hok
      subst hok
      refine ⟨fun _ => ⟨rfl, ?_⟩, fun hn => absurd hcross hn, ?_, fun _ => ?_⟩
      · intro hflen hpos
        simp only
        rw [hflen]
        have hone : s.max_files + 1 - s.max_files = 1 := by omega
        rw [hone, List.drop_append_of_le_length (by omega)]
      · simp only [List.length_drop, List.length_append, List.length_cons,
          List.length_nil]
        omega
      · rw [RotatingSink.consume, if_pos hcross, RotatingSink.rotate]
        simp
    · rw [RotatingSink.rotate, if_neg hre] at hok
      exact absurd hok (by simp)
  · rw [RotatingSink.consume, if_neg hcross] at hok
    simp only [Except.ok.injEq] at hok
    subst hok
    exact ⟨fun h => absurd h hcross, fun _ => ⟨rfl, rfl⟩, hfiles,
      fun h => absurd h hcross⟩

/-- C7 witness: a sink at its 100-byte limit with a full retention set
[0, 1] and `max_files = 2` takes one more 100-byte message: exactly one
rollover, file 0 (the oldest) evicted giving [1, 2], and the same consume
fails when the rename fails. -/
theorem C7_rotation_witness :
    ((⟨100, 2, 100, 3, [1, 2], 3⟩ : RotatingSink).rollovers = 2 + 1 ∧
     (⟨100, 2, 100, 3, [1, 2], 3⟩ : RotatingSink).files
        = ([0, 1] : List Nat).drop 1 ++ [2]) ∧
    (⟨100, 2, 100, 3, [1, 2], 3⟩ : RotatingSink).files.length ≤ 2 ∧
    RotatingSink.consume false 100 ⟨100, 2, 100, 2, [0, 1], 2⟩
      = Except.error SinkError.SinkIOError := by
  have h := C7_rotation ⟨100, 2, 100, 2, [0, 1], 2⟩ ⟨100, 2, 100, 3, [1, 2], 3⟩
    100 true rfl (by decide)
  have hcross : (100 : Nat) < 100 + 100 := by omega
  exact ⟨⟨(h.1 hcross).1, (h.1 hcross).2 rfl (by decide)⟩, h.2.2.1,
    h.2.2.2 hcross⟩

/-- C8 counterexample: with SPDLOG_DEBUG_ON present, an SPDLOG_DEBUG call
site expands to a real `force_log` call but does NOT attach the source
file and line of the call site, refuting the claim that every such macro
attaches them when its switch is present. -/
theorem C8_debug_no_source_loc :
    (spdlogDebugExpand true).attachesSourceLoc = false ∧
    spdlogDebugExpand true ≠ Expansion.nothing := by decide

/-- C8 (amended): without its build switch each call site expands to
nothing (zero runtime cost, nothing dispatched); with the switch present
both macros go through `force_log`, bypassing the runtime threshold;
SPDLOG_TRACE additionally attaches the call site's source file and line,
while SPDLOG_DEBUG does not. -/
theorem C8_compile_time_macros (lg : Logger) (msg : String) :
    spdlogTraceExpand false = Expansion.nothing ∧
    spdlogDebugExpand false = Expansion.nothing ∧
    runExpansion lg msg (spdlogTraceExpand false) = [] ∧
    runExpansion lg msg (spdlogDebugExpand false) = [] ∧
    spdlogTraceExpand true = Expansion.forceLogCall Level.trace true ∧
    spdlogDebugExpand true = Expansion.forceLogCall Level.debug false ∧
    runExpansion lg msg (spdlogTraceExpand true)
        = Logger.force_log lg Level.trace msg ∧
    runExpansion lg msg (spdlogDebugExpand true)
        = Logger.force_log lg Level.debug msg := by
  refine ⟨rfl, rfl, rfl, rfl, rfl, rfl, rfl, rfl⟩

/-- C9: per sink type the multi-threaded variant brackets every consume
and flush in lock/unlock of its internal mutex (serializing them), the
single-threaded variant performs no locking at all, and apart from
locking the two variants produce identical stream behavior. -/
theorem C9_locking_variants (cfg : OstreamSinkCfg) (bytes : String) :
    (consumeEvents MutexKind.realMutex cfg bytes
        = SinkEvent.lock ::
            (streamEvents (consumeEvents MutexKind.realMutex cfg bytes)
              ++ [SinkEvent.unlock])) ∧
    (streamEvents (consumeEvents MutexKind.nullMutex cfg bytes)
        = consumeEvents MutexKind.nullMutex cfg bytes) ∧
    (streamEvents (consumeEvents MutexKind.realMutex cfg bytes)
        = streamEvents (consumeEvents MutexKind.nullMutex cfg bytes)) ∧
    (flushEvents MutexKind.realMutex
        = SinkEvent.lock :: SinkEvent.flushStream :: [SinkEvent.unlock]) ∧
    (flushEvents MutexKind.nullMutex = [SinkEvent.flushStream]) ∧
    (streamEvents (flushEvents MutexKind.realMutex)
        = streamEvents (flushEvents MutexKind.nullMutex)) := by
  by_cases h : cfg.forceFlush <;>
    simp [consumeEvents, flushEvents, streamEvents, h]

/-- C10: every stdout/stderr sink, in both locking variants, is
constructed with the force-flush flag fixed to `true` (the constructor
takes no parameter that could disable it), so each consumed message is
followed by an immediate flush of the wrapped stream. -/
theorem C10_console_force_flush (mutex : MutexKind) (bytes : String) :
    (stdout_sink mutex).forceFlush = true ∧
    (stderr_sink mutex).forceFlush = true ∧
    stdout_sink_mt.forceFlush = true ∧
    stdout_sink_st.forceFlush = true ∧
    stderr_sink_mt.forceFlush = true ∧
    stderr_sink_st.forceFlush = true ∧
    SinkEvent.flushStream ∈ consumeEvents mutex (stdout_sink mutex) bytes ∧
    SinkEvent.flushStream ∈ consumeEvents mutex (stderr_sink mutex) bytes := by
  cases mutex <;>
    simp [stdout_sink, stderr_sink, stdout_sink_mt, stdout_sink_st,
      stderr_sink_mt, stderr_sink_st, consumeEvents]

end Spdlog
